import Mathlib

/-!
Verification of the solidity-deployer library (SingletonDeployer and
ContractVerifier) against its natural-language specification.

Bytes are modelled as `List Nat` (each entry one byte).  The external
ethers.js primitives `keccak256` and `getAddress` are opaque library
capabilities and are therefore parameters of the model (an `EthersLib`
record); everything the repository itself computes is embedded
faithfully from the TypeScript source.
-/

/-- The ethers.js primitives the deployer calls: `ethers.utils.keccak256`
(bytes to 32-byte digest) and `ethers.utils.getAddress` (20 address bytes
to the checksummed address string).  Both live outside this repository, so
they are parameters of the model. -/
structure EthersLib where
  keccak256 : List Nat → List Nat
  getAddress : List Nat → String

/-- `ethers.constants.HashZero`: 32 zero bytes. -/
def hashZero : List Nat := List.replicate 32 0

/-- `ethers.utils.hexDataSlice(data, offset)`: the bytes of `data` from
`offset` to the end. -/
def hexDataSlice (data : List Nat) (offset : Nat) : List Nat :=
  data.drop offset

/-- `ethers.utils.solidityPack(['bytes1','address','bytes32','bytes32'], ...)`:
tight concatenation of a 1-byte value, a 20-byte address and two 32-byte
words. -/
def solidityPackFf (b : Nat) (addr salt hash : List Nat) : List Nat :=
  [b] ++ addr ++ salt ++ hash

/-- `SingletonDeployer.addressFromData` (src/unnamed/part_000 lines 89-106):
`getAddress(hexDataSlice(keccak256(solidityPack(['bytes1','address','bytes32','bytes32'],
['0xff', factory.address, HashZero, keccak256(data)])), 12))`. -/
def addressFromData (lib : EthersLib) (factoryAddress : List Nat)
    (data : List Nat) : String :=
  lib.getAddress
    (hexDataSlice
      (lib.keccak256
        (solidityPackFf 0xff factoryAddress hashZero (lib.keccak256 data)))
      12)

/-- The AddressOracle contract as worded by the spec: the last 20 bytes of
`keccak256( 0xff ‖ factoryAddress ‖ 32 zero bytes ‖ keccak256(data) )`,
rendered as a chain address. -/
def addressOracleSpec (lib : EthersLib) (factoryAddress : List Nat)
    (data : List Nat) : String :=
  let digest :=
    lib.keccak256
      ([0xff] ++ factoryAddress ++ List.replicate 32 0 ++ lib.keccak256 data)
  lib.getAddress (digest.drop (digest.length - 20))

/-- `providers.TransactionRequest` as used by `deploy`: the `gasLimit`
field the code reads and writes, plus the other request fields, which
`deploy` never touches. -/
structure TxParams where
  gasLimit : Option Nat := none
  toAddress : Option String := none
  nonce : Option Nat := none
  gasPrice : Option Nat := none
  value : Option Nat := none
  data : Option (List Nat) := none
  chainId : Option Nat := none
deriving Repr, DecidableEq

/-- A chain-mutating transaction issued by `deploy`: the single
`singletonFactory.deploy(data, salt, txParams)` call. -/
inductive ChainEffect where
  | factoryDeploy (data : List Nat) (salt : List Nat) (params : TxParams)
deriving Repr, DecidableEq

/-- The chain/provider capability consumed by `deploy`, with the two
`getCode` query points (before sending the transaction, and after the
transaction wait) exposed separately, the latest block's gas limit, and
the outcome of `tx.wait()`. -/
structure DeployEnv where
  lib : EthersLib
  factoryAddress : List Nat
  getCodeBefore : String → String
  getCodeAfter : String → String
  blockGasLimit : Nat
  waitSucceeds : Bool
  waitError : String

/-- What a `deploy` call leaves behind: its result (the attached contract's
address, or the thrown error message), the chain-mutating transactions it
issued, and the final state of the caller's `txParams` object (which the
code mutates in place). -/
structure DeployOutcome where
  result : Except String String
  effects : List ChainEffect
  txParams : TxParams

/-- `SingletonDeployer.deploy` (src/unnamed/part_000 lines 30-75).
`data` is the creation transaction data produced by
`c.getDeployTransaction(...args)` (`none` when the factory yields no
data).  Each `getCode` result is the hex string the provider returns;
the code tests `.length > 2` (i.e. longer than `"0x"`). -/
def deploy (env : DeployEnv) (name : String) (data : Option (List Nat))
    (txParams : TxParams) : DeployOutcome :=
  match data with
  | none => ⟨Except.error ("No data for " ++ name), [], txParams⟩
  | some d =>
    let address := addressFromData env.lib env.factoryAddress d
    if (env.getCodeBefore address).length > 2 then
      ⟨Except.ok address, [], txParams⟩
    else
      let txParams' :=
        if txParams.gasLimit.isNone then
          { txParams with gasLimit := some (env.blockGasLimit * 4 / 10) }
        else txParams
      let effects := [ChainEffect.factoryDeploy d hashZero txParams']
      if env.waitSucceeds then
        if (env.getCodeAfter address).length ≤ 2 then
          ⟨Except.error ("Failed to deploy " ++ name ++ " at " ++ address),
            effects, txParams'⟩
        else
          ⟨Except.ok address, effects, txParams'⟩
      else
        ⟨Except.error env.waitError, effects, txParams'⟩

/-- Checks that `pat` is an initial segment of `s` (used to locate the
literal `soljson-` of the regex in `getLongVersion`). -/
def listStartsWith : List Char → List Char → Bool
  | [], _ => true
  | _ :: _, [] => false
  | p :: ps, c :: cs => p == c && listStartsWith ps cs

/-- Greedy position of the trailing `(.js)` group of the regex
`(soljson-)(.*)(.js)`: the largest `p` such that `rest` has `'j'` at
position `p + 1` and `'s'` at position `p + 2` (position `p` is the
any-character `.`). -/
def greedyJsPos (rest : List Char) : Option Nat :=
  (List.range rest.length).reverse.find? (fun p =>
    rest.get? (p + 1) == some 'j' && rest.get? (p + 2) == some 's')

/-- `fullVersion.replace(/(soljson-)(.*)(.js)/, '$2')`
(ContractVerifier.ts line 168): replace the leftmost match of the regex by
its second capture group (`.*` is greedy, `.` matches any character), and
return the string unchanged when there is no match. -/
def soljsonReplaceAux : List Char → List Char
  | [] => []
  | c :: cs =>
    if listStartsWith "soljson-".toList (c :: cs) then
      let rest := (c :: cs).drop 8
      match greedyJsPos rest with
      | some p => rest.take p ++ rest.drop (p + 3)
      | none => c :: soljsonReplaceAux cs
    else c :: soljsonReplaceAux cs

/-- String-level wrapper of `soljsonReplaceAux`. -/
def soljsonReplace (s : String) : String :=
  ⟨soljsonReplaceAux s.data⟩

/-- What the `axios.get(COMPILERS_LIST_URL)` call yields: a thrown network
error, or a response with an HTTP status and the parsed JSON body's
`releases` map (short version → soljson filename). -/
inductive FetchResult where
  | networkError
  | response (status : Nat) (releases : List (String × String))
deriving Repr, DecidableEq

/-- Association-list lookup, modelling the JavaScript property access
`responseText.releases[shortVersion]` (`none` = `undefined`). -/
def releasesLookup (releases : List (String × String)) (key : String) :
    Option String :=
  (releases.find? (fun kv => kv.1 == key)).map (fun kv => kv.2)

/-- The body of the `try` block of `ContractVerifier.getLongVersion`
(ContractVerifier.ts lines 149-171): fetch the compiler list, reject a
non-2xx status, look up the short version, reject `undefined` or `""`,
and strip the filename down to the long version with the regex replace. -/
def getLongVersionInner (fetch : FetchResult) (shortVersion : String) :
    Except String String :=
  match fetch with
  | FetchResult.networkError => Except.error "network error"
  | FetchResult.response status releases =>
    if status < 200 ∨ status > 299 then
      Except.error "Unabled to get solidity compiler versions. [object Object]"
    else
      match releasesLookup releases shortVersion with
      | none =>
        Except.error
          ("Unabled to find full solidity compiler version " ++ shortVersion)
      | some fullVersion =>
        if fullVersion = "" then
          Except.error
            ("Unabled to find full solidity compiler version " ++ shortVersion)
        else
          Except.ok (soljsonReplace fullVersion)

/-- `ContractVerifier.getLongVersion` (ContractVerifier.ts lines 146-177):
the `try` body wrapped in the `catch` that replaces every thrown error by
the fixed message `Unable to determine solidity compiler version`. -/
def getLongVersion (fetch : FetchResult) (shortVersion : String) :
    Except String String :=
  match getLongVersionInner fetch shortVersion with
  | Except.ok v => Except.ok v
  | Except.error _ =>
    Except.error "Unable to determine solidity compiler version"

/-- `ContractVerifier.validateBytecode` (ContractVerifier.ts lines 63-72):
`factory.bytecode` is the creation bytecode of the locally compiled
factory (an external ethers value, hence a parameter). -/
def validateBytecode (factoryBytecode expectedBytecode : String) :
    Except String Unit :=
  if factoryBytecode ≠ expectedBytecode then
    Except.error "Bytecode mismatch"
  else
    Except.ok ()

/-- The optimizer settings of a verification request
(`settings.optimizer`: `enabled`, `runs`, optional `details.yul`). -/
structure Optimizer where
  enabled : Bool
  runs : Nat
  detailsYul : Option Bool := none
deriving Repr, DecidableEq

/-- `ContractVerificationRequest` (ContractVerifier.ts lines 22-44): the
canonical request supplied by the caller.  `sources` maps file path to
source content; `libraries` maps file path to (name → address). -/
structure ContractVerificationRequest where
  contractToVerify : String
  version : String
  sources : List (String × String)
  optimizer : Optimizer
  libraries : Option (List (String × List (String × String))) := none
  remappings : Option (List String) := none
  waitForSuccess : Bool
deriving Repr, DecidableEq

/-- The Tenderly-shaped request `tenderVerificationRequest`
(ContractVerifier.ts lines 92-105). -/
structure TenderlyRequest where
  contractToVerify : String
  solcVersion : String
  solcSources : List (String × String)
  solcOptimizer : Optimizer
  configMode : String
deriving Repr, DecidableEq

/-- The default `outputSelection` of the Etherscan-shaped request
(ContractVerifier.ts lines 115-127). -/
def defaultOutputSelection : List (String × List (String × List String)) :=
  [("*",
    [("*",
      ["abi", "evm.bytecode", "evm.deployedBytecode",
       "evm.methodIdentifiers", "metadata"]),
     ("", ["ast"])])]

/-- The Etherscan-shaped request `etherscanVerificationRequest`
(ContractVerifier.ts lines 107-132). -/
structure EtherscanRequest where
  contractToVerify : String
  version : String
  language : String
  sources : List (String × String)
  optimizer : Optimizer
  outputSelection : List (String × List (String × List String))
  remappings : Option (List String)
  waitForSuccess : Bool
deriving Repr, DecidableEq

/-- Construction of the Tenderly request from the canonical request and
the short compiler version (ContractVerifier.ts lines 92-105): only the
short version, sources and optimizer settings are carried, with the fixed
`public` mode. -/
def mkTenderlyRequest (shortVersion : String)
    (req : ContractVerificationRequest) : TenderlyRequest :=
  ⟨req.contractToVerify, shortVersion, req.sources, req.optimizer, "public"⟩

/-- Construction of the Etherscan request from the canonical request and
the long compiler version (ContractVerifier.ts lines 107-132). -/
def mkEtherscanRequest (longVersion : String)
    (req : ContractVerificationRequest) : EtherscanRequest :=
  ⟨req.contractToVerify, longVersion, "Solidity", req.sources, req.optimizer,
    defaultOutputSelection, req.remappings, req.waitForSuccess⟩

/-- `version.split('+')[0]` (ContractVerifier.ts lines 83-85): the part of
the string before its first `'+'` (the whole string when there is none). -/
def splitPlusHead (s : String) : String :=
  ⟨s.data.takeWhile (fun c => c ≠ '+')⟩

/-- The I/O events a `verifyContract` call can produce, in order: the
registry fetch inside `getLongVersion`, the submission to Tenderly
(backend A) and the submission to Etherscan (backend B). -/
inductive VEffect where
  | fetchRegistry
  | tenderlySubmit (address contractName : String) (req : TenderlyRequest)
  | etherscanSubmit (address : String) (req : EtherscanRequest)
deriving Repr, DecidableEq

/-- The external capabilities `verifyContract` consumes: the compiler
registry response and the outcomes of the two backend submissions. -/
structure VerifyEnv where
  fetch : FetchResult
  tenderlyResult : Except String Unit
  etherscanResult : Except String Unit

/-- `ContractVerifier.verifyContract` (ContractVerifier.ts lines 74-143):
normalize the version (`version.includes('+')` is modelled on the
character list; truncate at `'+'` when long, otherwise resolve the long
form through `getLongVersion`), build the two backend-specific requests,
then submit to Tenderly and — only if that resolves — to Etherscan,
returning the first error.  The returned list records the I/O events in
order. -/
def verifyContract (env : VerifyEnv) (address : String)
    (req : ContractVerificationRequest) :
    Except String Unit × List VEffect :=
  let norm : Except String (String × String) × List VEffect :=
    if req.version.data.contains '+' then
      (Except.ok (splitPlusHead req.version, req.version), [])
    else
      match getLongVersion env.fetch req.version with
      | Except.ok lv => (Except.ok (req.version, lv), [VEffect.fetchRegistry])
      | Except.error e => (Except.error e, [VEffect.fetchRegistry])
  match norm with
  | (Except.error e, effs) => (Except.error e, effs)
  | (Except.ok (shortVersion, longVersion), effs) =>
    let tReq := mkTenderlyRequest shortVersion req
    let eReq := mkEtherscanRequest longVersion req
    let effs1 :=
      effs ++ [VEffect.tenderlySubmit address req.contractToVerify tReq]
    match env.tenderlyResult with
    | Except.error e => (Except.error e, effs1)
    | Except.ok _ =>
      (env.etherscanResult, effs1 ++ [VEffect.etherscanSubmit address eReq])

/-- Decidable equality for results, so concrete runs can be checked by
evaluation. -/
instance {α β : Type} [DecidableEq α] [DecidableEq β] :
    DecidableEq (Except α β) := fun a b =>
  match a, b with
  | Except.ok x, Except.ok y =>
    if h : x = y then isTrue (by rw [h])
    else isFalse (by intro hc; cases hc; exact h rfl)
  | Except.error x, Except.error y =>
    if h : x = y then isTrue (by rw [h])
    else isFalse (by intro hc; cases hc; exact h rfl)
  | Except.ok _, Except.error _ => isFalse (by intro hc; cases hc)
  | Except.error _, Except.ok _ => isFalse (by intro hc; cases hc)

/-- A sample ethers capability for concrete runs: a constant 32-byte
digest and a constant rendered address. -/
def sampleLib : EthersLib :=
  ⟨fun _ => List.replicate 32 0, fun _ => "0xA"⟩

/-- A chain on which the derived address already holds code. -/
def sampleEnvDeployed : DeployEnv :=
  ⟨sampleLib, List.replicate 20 1, fun _ => "0xabc", fun _ => "0x",
    100, true, "wait failed"⟩

/-- A chain on which the derived address holds no code, before and after
the deployment transaction. -/
def sampleEnvEmpty : DeployEnv :=
  ⟨sampleLib, List.replicate 20 1, fun _ => "0x", fun _ => "0x",
    100, true, "wait failed"⟩

/-- A sample canonical verification request with a long-form version. -/
def sampleRequest : ContractVerificationRequest :=
  ⟨"Greeter.sol:Greeter", "v0.8.18+commit.87f61d96",
    [("Greeter.sol", "contract Greeter")], ⟨true, 200, none⟩,
    none, none, true⟩

/-- A verification environment whose Tenderly submission throws. -/
def sampleVerifyEnvErr : VerifyEnv :=
  ⟨FetchResult.networkError, Except.error "boom", Except.ok ()⟩

/-- A verification environment whose backend submissions both succeed. -/
def sampleVerifyEnvOk : VerifyEnv :=
  ⟨FetchResult.networkError, Except.ok (), Except.ok ()⟩

/-- Claim C1: for every deployment bytecode and factory address,
`addressFromData` returns the last 20 bytes of
`keccak256( 0xff ‖ factoryAddress ‖ 32 zero bytes ‖ keccak256(data) )`
rendered as a chain address (given that keccak256 produces a 32-byte
digest), and identical bytecode plus identical factory address yields the
identical derived address. -/
theorem addressFromData_matches_oracle (lib : EthersLib)
    (factoryAddress data : List Nat)
    (hlen : (lib.keccak256 (solidityPackFf 0xff factoryAddress hashZero
      (lib.keccak256 data))).length = 32) :
    addressFromData lib factoryAddress data =
      addressOracleSpec lib factoryAddress data
    ∧ ∀ data2, data2 = data →
        addressFromData lib factoryAddress data2 =
          addressFromData lib factoryAddress data := by
  constructor
  · unfold addressFromData addressOracleSpec hexDataSlice
    unfold solidityPackFf hashZero at hlen ⊢
    simp only [hlen]
  · intro data2 h2
    rw [h2]

/-- Concrete instance of `addressFromData_matches_oracle`. -/
theorem addressFromData_matches_oracle_witness :
    ((EthersLib.mk (fun _ => List.replicate 32 0) (fun _ => "0x")).keccak256
      (solidityPackFf 0xff (List.replicate 20 0) hashZero
        ((EthersLib.mk (fun _ => List.replicate 32 0)
          (fun _ => "0x")).keccak256 []))).length = 32
    ∧ (addressFromData (EthersLib.mk (fun _ => List.replicate 32 0)
        (fun _ => "0x")) (List.replicate 20 0) [] =
       addressOracleSpec (EthersLib.mk (fun _ => List.replicate 32 0)
        (fun _ => "0x")) (List.replicate 20 0) []
      ∧ ∀ data2, data2 = ([] : List Nat) →
          addressFromData (EthersLib.mk (fun _ => List.replicate 32 0)
            (fun _ => "0x")) (List.replicate 20 0) data2 =
          addressFromData (EthersLib.mk (fun _ => List.replicate 32 0)
            (fun _ => "0x")) (List.replicate 20 0) []) :=
  ⟨by simp, addressFromData_matches_oracle _ _ _ (by simp)⟩

/-- Claim C2: when the chain code query for the derived address returns
non-empty bytes (a hex string longer than `"0x"`) before any deployment
is attempted, `deploy` issues no chain-mutating transaction, returns a
handle bound to the derived address, and leaves `txParams` untouched. -/
theorem deploy_short_circuits_when_code_present (env : DeployEnv)
    (name : String) (d : List Nat) (p : TxParams)
    (h : (env.getCodeBefore
      (addressFromData env.lib env.factoryAddress d)).length > 2) :
    (deploy env name (some d) p).result =
      Except.ok (addressFromData env.lib env.factoryAddress d)
    ∧ (deploy env name (some d) p).effects = []
    ∧ (deploy env name (some d) p).txParams = p := by
  unfold deploy
  dsimp only
  rw [if_pos h]
  exact ⟨rfl, rfl, rfl⟩

/-- Concrete instance of `deploy_short_circuits_when_code_present`. -/
theorem deploy_short_circuits_when_code_present_witness :
    (sampleEnvDeployed.getCodeBefore (addressFromData sampleEnvDeployed.lib
      sampleEnvDeployed.factoryAddress [1])).length > 2
    ∧ ((deploy sampleEnvDeployed "Greeter" (some [1]) {}).result =
        Except.ok (addressFromData sampleEnvDeployed.lib
          sampleEnvDeployed.factoryAddress [1])
      ∧ (deploy sampleEnvDeployed "Greeter" (some [1]) {}).effects = []
      ∧ (deploy sampleEnvDeployed "Greeter" (some [1]) {}).txParams = {}) :=
  ⟨by decide, deploy_short_circuits_when_code_present _ _ _ _ (by decide)⟩

/-- Claim C3: when the deployment transaction is sent, its wait completes
successfully, and the subsequent chain code query still returns empty
code, `deploy` throws the error `Failed to deploy <name> at <address>`,
whose message contains both the contract name and the derived address. -/
theorem deploy_errors_when_unconfirmed (env : DeployEnv)
    (name : String) (d : List Nat) (p : TxParams)
    (hbefore : ¬ (env.getCodeBefore
      (addressFromData env.lib env.factoryAddress d)).length > 2)
    (hwait : env.waitSucceeds = true)
    (hafter : (env.getCodeAfter
      (addressFromData env.lib env.factoryAddress d)).length ≤ 2) :
    (deploy env name (some d) p).result =
      Except.error ("Failed to deploy " ++ name ++ " at " ++
        addressFromData env.lib env.factoryAddress d)
    ∧ name.data <:+:
        ("Failed to deploy " ++ name ++ " at " ++
          addressFromData env.lib env.factoryAddress d).data
    ∧ (addressFromData env.lib env.factoryAddress d).data <:+:
        ("Failed to deploy " ++ name ++ " at " ++
          addressFromData env.lib env.factoryAddress d).data := by
  refine ⟨?_, ?_, ?_⟩
  · unfold deploy
    dsimp only
    rw [if_neg hbefore, hwait]
    simp [hafter]
  · exact ⟨"Failed to deploy ".data,
      (" at " ++ addressFromData env.lib env.factoryAddress d).data,
      by simp [String.data_append]⟩
  · exact ⟨("Failed to deploy " ++ name ++ " at ").data, [],
      by simp [String.data_append]⟩

/-- Concrete instance of `deploy_errors_when_unconfirmed`. -/
theorem deploy_errors_when_unconfirmed_witness :
    (¬ (sampleEnvEmpty.getCodeBefore (addressFromData sampleEnvEmpty.lib
      sampleEnvEmpty.factoryAddress [1])).length > 2)
    ∧ sampleEnvEmpty.waitSucceeds = true
    ∧ (sampleEnvEmpty.getCodeAfter (addressFromData sampleEnvEmpty.lib
      sampleEnvEmpty.factoryAddress [1])).length ≤ 2
    ∧ ((deploy sampleEnvEmpty "Greeter" (some [1]) {}).result =
        Except.error ("Failed to deploy " ++ "Greeter" ++ " at " ++
          addressFromData sampleEnvEmpty.lib sampleEnvEmpty.factoryAddress [1])
      ∧ "Greeter".data <:+:
          ("Failed to deploy " ++ "Greeter" ++ " at " ++
            addressFromData sampleEnvEmpty.lib
              sampleEnvEmpty.factoryAddress [1]).data
      ∧ (addressFromData sampleEnvEmpty.lib
          sampleEnvEmpty.factoryAddress [1]).data <:+:
          ("Failed to deploy " ++ "Greeter" ++ " at " ++
            addressFromData sampleEnvEmpty.lib
              sampleEnvEmpty.factoryAddress [1]).data) :=
  ⟨by decide, rfl, by decide,
    deploy_errors_when_unconfirmed _ _ _ _ (by decide) rfl (by decide)⟩

/-- Claim C4: against a registry mapping `v0.8.18` to
`soljson-v0.8.18+commit.87f61d96.js`, `getLongVersion("v0.8.18")` returns
exactly `v0.8.18+commit.87f61d96`, i.e. the filename with the `soljson-`
prefix and `.js` suffix stripped. -/
theorem getLongVersion_registry_example :
    getLongVersion (FetchResult.response 200
      [("v0.8.18", "soljson-v0.8.18+commit.87f61d96.js")]) "v0.8.18"
      = Except.ok "v0.8.18+commit.87f61d96"
    ∧ ("soljson-v0.8.18+commit.87f61d96.js" : String) =
        "soljson-" ++ "v0.8.18+commit.87f61d96" ++ ".js" :=
  ⟨by decide, by decide⟩

/-- Claim C5: when the version string contains `'+'`, `verifyContract`
derives the short version by truncating at the delimiter and never
fetches the compiler registry: its first I/O event is already the
Tenderly submission carrying the truncated version. -/
theorem verifyContract_truncates_long_version (env : VerifyEnv)
    (address : String) (req : ContractVerificationRequest)
    (h : req.version.data.contains '+' = true) :
    (verifyContract env address req).2.head? =
      some (VEffect.tenderlySubmit address req.contractToVerify
        (mkTenderlyRequest (splitPlusHead req.version) req))
    ∧ VEffect.fetchRegistry ∉ (verifyContract env address req).2 := by
  unfold verifyContract
  dsimp only
  rw [if_pos h]
  cases ht : env.tenderlyResult with
  | error e => simp
  | ok u => simp

/-- Concrete instance of `verifyContract_truncates_long_version`. -/
theorem verifyContract_truncates_long_version_witness :
    sampleRequest.version.data.contains '+' = true
    ∧ ((verifyContract sampleVerifyEnvOk "0xD" sampleRequest).2.head? =
        some (VEffect.tenderlySubmit "0xD" sampleRequest.contractToVerify
          (mkTenderlyRequest (splitPlusHead sampleRequest.version)
            sampleRequest))
      ∧ VEffect.fetchRegistry ∉
          (verifyContract sampleVerifyEnvOk "0xD" sampleRequest).2)
    ∧ splitPlusHead "v0.8.18+commit.87f61d96" = "v0.8.18" :=
  ⟨by decide, verifyContract_truncates_long_version _ _ _ (by decide),
    by decide⟩

/-- Case analysis of a `verifyContract` run: either version normalization
fails (only the registry fetch happened), or the Tenderly submission was
reached and threw (no Etherscan event), or both submissions happened in
order. -/
theorem verifyContract_shape (env : VerifyEnv) (address : String)
    (req : ContractVerificationRequest) :
    (∃ e, verifyContract env address req =
      (Except.error e, [VEffect.fetchRegistry]))
    ∨ (∃ effs0 shortV,
        (effs0 = ([] : List VEffect) ∨ effs0 = [VEffect.fetchRegistry])
        ∧ ((∃ e, env.tenderlyResult = Except.error e
            ∧ verifyContract env address req =
              (Except.error e, effs0 ++
                [VEffect.tenderlySubmit address req.contractToVerify
                  (mkTenderlyRequest shortV req)]))
          ∨ (env.tenderlyResult = Except.ok ()
            ∧ ∃ longV, verifyContract env address req =
              (env.etherscanResult, effs0 ++
                [VEffect.tenderlySubmit address req.contractToVerify
                  (mkTenderlyRequest shortV req),
                 VEffect.etherscanSubmit address
                  (mkEtherscanRequest longV req)])))) := by
  unfold verifyContract
  dsimp only
  by_cases h : req.version.data.contains '+' = true
  · rw [if_pos h]
    cases ht : env.tenderlyResult with
    | error e =>
      exact Or.inr ⟨[], splitPlusHead req.version, Or.inl rfl,
        Or.inl ⟨e, rfl, by simp⟩⟩
    | ok u =>
      exact Or.inr ⟨[], splitPlusHead req.version, Or.inl rfl,
        Or.inr ⟨rfl, req.version, by simp⟩⟩
  · rw [if_neg h]
    cases hg : getLongVersion env.fetch req.version with
    | error e =>
      exact Or.inl ⟨e, rfl⟩
    | ok lv =>
      cases ht : env.tenderlyResult with
      | error e =>
        exact Or.inr ⟨[VEffect.fetchRegistry], req.version, Or.inr rfl,
          Or.inl ⟨e, rfl, by simp⟩⟩
      | ok u =>
        exact Or.inr ⟨[VEffect.fetchRegistry], req.version, Or.inr rfl,
          Or.inr ⟨rfl, lv, by simp⟩⟩

/-- Claim C6: every Etherscan (backend B) submission is preceded by the
Tenderly (backend A) submission, and when the Tenderly submission throws,
no Etherscan submission happens and the Tenderly error propagates to the
caller. -/
theorem verifyContract_tenderly_first (env : VerifyEnv) (address : String)
    (req : ContractVerificationRequest) :
    (∀ a r, VEffect.etherscanSubmit a r ∈ (verifyContract env address req).2 →
       ∃ l1 tr l2,
         (verifyContract env address req).2 =
           l1 ++ VEffect.tenderlySubmit address req.contractToVerify tr :: l2
         ∧ VEffect.etherscanSubmit a r ∈ l2)
    ∧ (∀ e, env.tenderlyResult = Except.error e →
        (∀ a r, VEffect.etherscanSubmit a r ∉
          (verifyContract env address req).2)
        ∧ ((∃ tr, VEffect.tenderlySubmit address req.contractToVerify tr ∈
             (verifyContract env address req).2) →
           (verifyContract env address req).1 = Except.error e)) := by
  rcases verifyContract_shape env address req with
    ⟨e, hv⟩ | ⟨effs0, shortV, heffs0, hrest⟩
  · refine ⟨?_, ?_⟩
    · intro a r hmem
      rw [hv] at hmem
      simp at hmem
    · intro e0 _
      refine ⟨?_, ?_⟩
      · intro a r hmem
        rw [hv] at hmem
        simp at hmem
      · rintro ⟨tr, hmem⟩
        rw [hv] at hmem
        simp at hmem
  · rcases hrest with ⟨e, hten, hv⟩ | ⟨hok, longV, hv⟩
    · refine ⟨?_, ?_⟩
      · intro a r hmem
        rw [hv] at hmem
        rcases heffs0 with h0 | h0 <;> subst h0 <;> simp at hmem
      · intro e0 ht
        rw [ht] at hten
        injection hten with he
        subst he
        refine ⟨?_, ?_⟩
        · intro a r hmem
          rw [hv] at hmem
          rcases heffs0 with h0 | h0 <;> subst h0 <;> simp at hmem
        · intro _
          rw [hv]
    · refine ⟨?_, ?_⟩
      · intro a r hmem
        rw [hv] at hmem
        refine ⟨effs0, mkTenderlyRequest shortV req,
          [VEffect.etherscanSubmit address (mkEtherscanRequest longV req)],
          ?_, ?_⟩
        · rw [hv]
        · rcases heffs0 with h0 | h0 <;> subst h0 <;> simp at hmem <;>
            simp [hmem.1, hmem.2]
      · intro e0 ht
        rw [ht] at hok
        cases hok

/-- Concrete instance of `verifyContract_tenderly_first`: with a throwing
Tenderly backend, no Etherscan submission happens and the Tenderly error
is returned. -/
theorem verifyContract_tenderly_first_witness :
    sampleVerifyEnvErr.tenderlyResult = Except.error "boom"
    ∧ ((∀ a r, VEffect.etherscanSubmit a r ∉
         (verifyContract sampleVerifyEnvErr "0xD" sampleRequest).2)
      ∧ ((∃ tr, VEffect.tenderlySubmit "0xD" sampleRequest.contractToVerify
           tr ∈ (verifyContract sampleVerifyEnvErr "0xD" sampleRequest).2) →
         (verifyContract sampleVerifyEnvErr "0xD" sampleRequest).1 =
           Except.error "boom"))
    ∧ (verifyContract sampleVerifyEnvErr "0xD" sampleRequest).1 =
        Except.error "boom" :=
  ⟨rfl,
    (verifyContract_tenderly_first sampleVerifyEnvErr "0xD" sampleRequest).2
      "boom" rfl,
    ((verifyContract_tenderly_first sampleVerifyEnvErr "0xD"
        sampleRequest).2 "boom" rfl).2
      ⟨mkTenderlyRequest (splitPlusHead sampleRequest.version) sampleRequest,
        by decide⟩⟩

/-- Claim C7: `validateBytecode` returns normally exactly when the
factory's creation bytecode equals the expected value, and throws the
bytecode-mismatch error whenever the two differ. -/
theorem validateBytecode_mismatch_iff (f e : String) :
    (validateBytecode f e = Except.ok () ↔ f = e)
    ∧ (f ≠ e → validateBytecode f e = Except.error "Bytecode mismatch") := by
  refine ⟨⟨?_, ?_⟩, ?_⟩
  · intro h
    by_contra hne
    unfold validateBytecode at h
    rw [if_pos hne] at h
    cases h
  · intro h
    unfold validateBytecode
    rw [if_neg (by simp [h])]
  · intro h
    unfold validateBytecode
    rw [if_pos h]

/-- Concrete instance of `validateBytecode_mismatch_iff`. -/
theorem validateBytecode_mismatch_iff_witness :
    validateBytecode "0x60" "0x60" = Except.ok ()
    ∧ ("0x60" : String) ≠ "0x61"
    ∧ validateBytecode "0x60" "0x61" = Except.error "Bytecode mismatch" :=
  ⟨(validateBytecode_mismatch_iff "0x60" "0x60").1.mpr rfl, by decide,
    (validateBytecode_mismatch_iff "0x60" "0x61").2 (by decide)⟩

/-- Claim C8 (amended): `getLongVersion` throws on network failure, on a
non-success response status, and on a missing or empty mapping entry, but
in every such case the error surfaced to the caller is the fixed message
`Unable to determine solidity compiler version`, which does not carry the
requested version (the version-bearing message is swallowed by the
`catch`). -/
theorem getLongVersion_failure_modes (shortVersion : String) :
    getLongVersion FetchResult.networkError shortVersion =
      Except.error "Unable to determine solidity compiler version"
    ∧ (∀ status releases, status < 200 ∨ status > 299 →
        getLongVersion (FetchResult.response status releases) shortVersion =
          Except.error "Unable to determine solidity compiler version")
    ∧ (∀ status releases, ¬ (status < 200 ∨ status > 299) →
        (releasesLookup releases shortVersion = none ∨
         releasesLookup releases shortVersion = some "") →
        getLongVersion (FetchResult.response status releases) shortVersion =
          Except.error "Unable to determine solidity compiler version") := by
  refine ⟨rfl, ?_, ?_⟩
  · intro status releases hst
    unfold getLongVersion getLongVersionInner
    dsimp only
    rw [if_pos hst]
  · intro status releases hst hlook
    unfold getLongVersion getLongVersionInner
    dsimp only
    rw [if_neg hst]
    rcases hlook with hl | hl
    · rw [hl]
    · rw [hl]
      simp

/-- Concrete instance of `getLongVersion_failure_modes`. -/
theorem getLongVersion_failure_modes_witness :
    ((500 : Nat) < 200 ∨ (500 : Nat) > 299)
    ∧ getLongVersion (FetchResult.response 500 []) "v0.8.18" =
        Except.error "Unable to determine solidity compiler version"
    ∧ (¬ ((250 : Nat) < 200 ∨ (250 : Nat) > 299))
    ∧ releasesLookup [] "v0.8.18" = none
    ∧ getLongVersion (FetchResult.response 250 []) "v0.8.18" =
        Except.error "Unable to determine solidity compiler version" :=
  ⟨by decide, (getLongVersion_failure_modes "v0.8.18").2.1 500 [] (by decide),
    by decide, rfl,
    (getLongVersion_failure_modes "v0.8.18").2.2 250 [] (by decide)
      (Or.inl rfl)⟩

/-- Counterexample to claim C8 as stated: on a network failure the error
surfaced for the requested version `v0.8.18` is the fixed message
`Unable to determine solidity compiler version`, and that message does
not contain the requested version. -/
theorem getLongVersion_error_omits_version :
    getLongVersion FetchResult.networkError "v0.8.18" =
      Except.error "Unable to determine solidity compiler version"
    ∧ ¬ ("v0.8.18".data <:+:
        "Unable to determine solidity compiler version".data) :=
  ⟨by decide, by decide⟩

/-- Claim C9: on the transaction-sending path with no `gasLimit` supplied,
the gas limit placed in the factory deployment call is
`blockGasLimit * 4 / 10` in exact (flooring) integer arithmetic. -/
theorem deploy_estimates_gas_limit (env : DeployEnv)
    (name : String) (d : List Nat) (p : TxParams)
    (hbefore : ¬ (env.getCodeBefore
      (addressFromData env.lib env.factoryAddress d)).length > 2)
    (hgas : p.gasLimit = none) :
    (deploy env name (some d) p).effects =
      [ChainEffect.factoryDeploy d hashZero
        { p with gasLimit := some (env.blockGasLimit * 4 / 10) }] := by
  unfold deploy
  dsimp only
  rw [if_neg hbefore]
  simp only [hgas, Option.isNone_none, ite_true]
  split
  · split <;> rfl
  · rfl

/-- Concrete instance of `deploy_estimates_gas_limit`. -/
theorem deploy_estimates_gas_limit_witness :
    (¬ (sampleEnvEmpty.getCodeBefore (addressFromData sampleEnvEmpty.lib
      sampleEnvEmpty.factoryAddress [1])).length > 2)
    ∧ ({} : TxParams).gasLimit = none
    ∧ (deploy sampleEnvEmpty "Greeter" (some [1]) {}).effects =
        [ChainEffect.factoryDeploy [1] hashZero
          { ({} : TxParams) with
              gasLimit := some (sampleEnvEmpty.blockGasLimit * 4 / 10) }] :=
  ⟨by decide, rfl, deploy_estimates_gas_limit _ _ _ _ (by decide) rfl⟩

/-- Claim C10: with a caller-supplied `txParams` lacking a `gasLimit`, a
short-circuited `deploy` leaves `txParams` entirely unchanged, while a
deploying `deploy` writes exactly the estimated gas limit into its
`gasLimit` field and leaves every other field unchanged. -/
theorem deploy_txParams_frame (env : DeployEnv)
    (name : String) (d : List Nat) (p : TxParams)
    (hgas : p.gasLimit = none) :
    ((env.getCodeBefore
        (addressFromData env.lib env.factoryAddress d)).length > 2 →
      (deploy env name (some d) p).txParams = p)
    ∧ (¬ (env.getCodeBefore
        (addressFromData env.lib env.factoryAddress d)).length > 2 →
      (deploy env name (some d) p).txParams =
        { p with gasLimit := some (env.blockGasLimit * 4 / 10) }) := by
  constructor
  · intro h
    unfold deploy
    dsimp only
    rw [if_pos h]
  · intro h
    unfold deploy
    dsimp only
    rw [if_neg h]
    simp only [hgas, Option.isNone_none, ite_true]
    split
    · split <;> rfl
    · rfl

/-- Concrete instance of `deploy_txParams_frame`. -/
theorem deploy_txParams_frame_witness :
    ({} : TxParams).gasLimit = none
    ∧ (¬ (sampleEnvEmpty.getCodeBefore (addressFromData sampleEnvEmpty.lib
        sampleEnvEmpty.factoryAddress [1])).length > 2)
    ∧ (deploy sampleEnvEmpty "Greeter" (some [1]) {}).txParams =
        { ({} : TxParams) with
            gasLimit := some (sampleEnvEmpty.blockGasLimit * 4 / 10) } :=
  ⟨rfl, by decide, (deploy_txParams_frame _ _ _ _ rfl).2 (by decide)⟩
